import Mathlib

/-!
Shallow embedding of the GSAP debugger overlay script of this repository
(`src/unnamed/part_000`, version 1.0.5; `src/gsap-debugger-webflow.js` is the
earlier 1.0.3 revision of the same script).  The script instruments an external
animation library: it wraps the library's construction entry points, keeps
per-kind registries of snapshots, reacts to library-invoked callbacks, and
re-renders four overlay sections on a timer.  External library state (tween
`vars` objects, queried playback values, scroll-trigger state, DOM events) is
passed to the embedded handlers as explicit data; the definitions below
translate the script's own code.
-/

namespace GsapDebugger

/-- JavaScript values as they occur in `vars` objects and registries: numbers,
strings, booleans, and an opaque marker for function values (the script only
tests `typeof v === 'function'` on these; the display text of a function value
is abstracted as `[function]`). -/
inductive JSVal where
  | num (q : ℚ)
  | str (s : String)
  | boolVal (b : Bool)
  | func
deriving DecidableEq

/-- Test used for the `typeof tween.vars[key] !== 'function'` filter. -/
def JSVal.isFunction : JSVal → Bool
  | .func => true
  | _ => false

/-- DOM elements as far as `getElementIdentifier` inspects them: the window,
the document body, or an element with `id`, `className` and `tagName`. -/
inductive Element where
  | window
  | body
  | el (id : String) (className : String) (tagName : String)
deriving DecidableEq

/-- Embedding of `getElementIdentifier` (part_000 lines 301-314): `null` and
`undefined` inputs are `none`; JavaScript string truthiness is the test
against the empty string. -/
def getElementIdentifier : Option Element → String
  | none => "N/A"
  | some .window => "Window"
  | some .body => "Body"
  | some (.el id cls tag) =>
    if id ≠ "" then "#" ++ id
    else if cls ≠ "" then
      match (cls.splitOn " ").filter (fun c => c.length > 0) with
      | c :: rest => "." ++ c ++ (if rest.length > 0 then " (+)" else "")
      | [] => if tag ≠ "" then "<" ++ tag.toLower ++ ">" else "Unknown Element"
    else if tag ≠ "" then "<" ++ tag.toLower ++ ">" else "Unknown Element"

/-- Floor of a rational number, computed on the reduced fraction. -/
def ratFloor (q : ℚ) : ℤ := Int.fdiv q.num q.den

/-- Left-pad a natural number with zeros to `d` digits. -/
def zeroPad (d : Nat) (n : Nat) : String :=
  let s := toString n
  String.mk (List.replicate (d - s.length) '0') ++ s

/-- Embedding of JavaScript `Number.prototype.toFixed(d)` on exact rationals:
round to the nearest multiple of `10 ^ (-d)`, ties towards positive infinity,
then print with exactly `d` fractional digits. -/
def toFixed (d : Nat) (q : ℚ) : String :=
  let n : ℤ := ratFloor (q * ((10 : ℚ) ^ d) + 1 / 2)
  let sign := if n < 0 then "-" else ""
  let a := n.natAbs
  if d = 0 then sign ++ toString a
  else sign ++ toString (a / 10 ^ d) ++ "." ++ zeroPad d (a % 10 ^ d)

/-- Embedding of `formatProperty` (part_000 lines 288-299). -/
def formatProperty (key : String) (value : JSVal) : String :=
  match value with
  | .num q => key ++ ": " ++ toFixed 2 q
  | .boolVal b => key ++ ": " ++ (if b then "true" else "false")
  | .str s =>
    if s.length > 50 then key ++ ": " ++ s.take 47 ++ "..."
    else key ++ ": " ++ s
  | .func => key ++ ": [function]"

/-- Does the character list start with the given pattern? -/
def charsStartWith : List Char → List Char → Bool
  | _, [] => true
  | [], _ :: _ => false
  | a :: as, b :: bs => (a = b) && charsStartWith as bs

/-- Does the pattern occur anywhere in the character list? -/
def charsInclude : List Char → List Char → Bool
  | [], pat => pat.isEmpty
  | a :: as, pat => charsStartWith (a :: as) pat || charsInclude as pat

/-- Embedding of JavaScript `String.prototype.includes`: the pattern occurs
as a contiguous substring (the empty pattern always occurs). -/
def strIncludes (s pat : String) : Bool := charsInclude s.data pat.data

section Registry

variable {κ α : Type} [DecidableEq κ]

/-- `Map.prototype.get` on an insertion-ordered association list. -/
def mapGet : List (κ × α) → κ → Option α
  | [], _ => none
  | (k', v') :: rest, k => if k' = k then some v' else mapGet rest k

/-- `Map.prototype.set`: replace in place if the key is present, otherwise
append at the end (JavaScript `Map` preserves insertion order). -/
def mapSet : List (κ × α) → κ → α → List (κ × α)
  | [], k, v => [(k, v)]
  | (k', v') :: rest, k, v =>
    if k' = k then (k, v) :: rest else (k', v') :: mapSet rest k v

/-- `Map.prototype.delete`: remove the entry for a key. -/
def mapDelete : List (κ × α) → κ → List (κ × α)
  | [], _ => []
  | (k', v') :: rest, k =>
    if k' = k then mapDelete rest k else (k', v') :: mapDelete rest k

/-- Number of entries stored under a key (1 or 0 for a genuine map). -/
def countKey : List (κ × α) → κ → Nat
  | [], _ => 0
  | (k', _) :: rest, k => (if k' = k then 1 else 0) + countKey rest k

theorem mapGet_mapSet_self (r : List (κ × α)) (k : κ) (v : α) :
    mapGet (mapSet r k v) k = some v := by
  induction r with
  | nil => simp [mapSet, mapGet]
  | cons p rest ih =>
    obtain ⟨k', v'⟩ := p
    by_cases h : k' = k <;> simp [mapSet, mapGet, h, ih]

theorem mapGet_mapSet_ne (r : List (κ × α)) (k k₂ : κ) (v : α) (h : k₂ ≠ k) :
    mapGet (mapSet r k v) k₂ = mapGet r k₂ := by
  have h' : ¬ k = k₂ := fun hh => h hh.symm
  induction r with
  | nil => simp [mapSet, mapGet, h']
  | cons p rest ih =>
    obtain ⟨k', v'⟩ := p
    by_cases h1 : k' = k
    · subst h1
      simp [mapSet, mapGet, h']
    · simp [mapSet, mapGet, h1, ih]

theorem length_mapSet_of_none (r : List (κ × α)) (k : κ) (v : α)
    (h : mapGet r k = none) : (mapSet r k v).length = r.length + 1 := by
  induction r with
  | nil => simp [mapSet]
  | cons p rest ih =>
    obtain ⟨k', v'⟩ := p
    by_cases h1 : k' = k
    · simp [mapGet, h1] at h
    · simp only [mapGet, if_neg h1] at h
      simp [mapSet, h1, ih h]

theorem mapSet_idem (r : List (κ × α)) (k : κ) (v : α) :
    mapSet (mapSet r k v) k v = mapSet r k v := by
  induction r with
  | nil => simp [mapSet]
  | cons p rest ih =>
    obtain ⟨k', v'⟩ := p
    by_cases h : k' = k <;> simp [mapSet, h, ih]

theorem countKey_mapSet_of_none (r : List (κ × α)) (k : κ) (v : α)
    (h : mapGet r k = none) : countKey (mapSet r k v) k = 1 := by
  induction r with
  | nil => simp [mapSet, countKey]
  | cons p rest ih =>
    obtain ⟨k', v'⟩ := p
    by_cases h1 : k' = k
    · simp [mapGet, h1] at h
    · simp only [mapGet, if_neg h1] at h
      simp [mapSet, countKey, h1, ih h]

theorem countKey_mapDelete_self (r : List (κ × α)) (k : κ) :
    countKey (mapDelete r k) k = 0 := by
  induction r with
  | nil => simp [mapDelete, countKey]
  | cons p rest ih =>
    obtain ⟨k', v'⟩ := p
    by_cases h : k' = k <;> simp [mapDelete, countKey, h, ih]

theorem mapGet_mapDelete_self (r : List (κ × α)) (k : κ) :
    mapGet (mapDelete r k) k = none := by
  induction r with
  | nil => simp [mapDelete, mapGet]
  | cons p rest ih =>
    obtain ⟨k', v'⟩ := p
    by_cases h : k' = k <;> simp [mapDelete, mapGet, h, ih]

theorem mapGet_mapDelete_ne (r : List (κ × α)) (k k₂ : κ) (h : k₂ ≠ k) :
    mapGet (mapDelete r k) k₂ = mapGet r k₂ := by
  have h' : ¬ k = k₂ := fun hh => h hh.symm
  induction r with
  | nil => simp [mapDelete]
  | cons p rest ih =>
    obtain ⟨k', v'⟩ := p
    by_cases h1 : k' = k
    · subst h1
      simp [mapDelete, mapGet, ih, h']
    · simp [mapDelete, mapGet, h1, ih]

theorem mapGet_append_of_some (a b : List (κ × α)) (k : κ) (v : α)
    (h : mapGet a k = some v) : mapGet (a ++ b) k = some v := by
  induction a with
  | nil => simp [mapGet] at h
  | cons p rest ih =>
    obtain ⟨k', v'⟩ := p
    by_cases h1 : k' = k
    · simp_all [mapGet]
    · simp only [mapGet, if_neg h1] at h
      simp [mapGet, h1, ih h]

end Registry

theorem mapGet_filterMap_of_not_mem (ks : List String)
    (vars : List (String × JSVal)) (k : String) (hk : k ∉ ks) :
    mapGet (ks.filterMap fun p => (mapGet vars p).map fun v => (p, v)) k
      = none := by
  induction ks with
  | nil => simp [mapGet]
  | cons p ks ih =>
    have hpk : p ≠ k := fun h => hk (h ▸ List.mem_cons_self p ks)
    have hk' : k ∉ ks := fun h => hk (List.mem_cons_of_mem p h)
    simp only [List.filterMap_cons]
    cases hv : mapGet vars p with
    | none => simpa using ih hk'
    | some v => simp [mapGet, hpk, ih hk']

theorem mapGet_filterMap_keys (ks : List String)
    (vars : List (String × JSVal)) (k : String) (hnd : ks.Nodup)
    (hk : k ∈ ks) :
    mapGet (ks.filterMap fun p => (mapGet vars p).map fun v => (p, v)) k
      = mapGet vars k := by
  induction ks with
  | nil => simp at hk
  | cons p ks ih =>
    obtain ⟨hp, hnd'⟩ := List.nodup_cons.mp hnd
    simp only [List.filterMap_cons]
    by_cases hpk : p = k
    · subst hpk
      cases hv : mapGet vars p with
      | none => simpa [hv] using mapGet_filterMap_of_not_mem ks vars p hp
      | some v => simp [mapGet, hv]
    · have hk' : k ∈ ks := by
        rcases List.mem_cons.mp hk with h | h
        · exact absurd h.symm hpk
        · exact h
      cases hv : mapGet vars p with
      | none => simpa using ih hnd' hk'
      | some v => simp [mapGet, hpk, ih hnd' hk']

/-- A GSAP tween as the script observes it: its identity, its `vars` object
(the declared parameters passed to `gsap.to`/`from`/`fromTo`), and the first
element of `tween.targets()`. -/
structure Tween where
  tid : Nat
  vars : List (String × JSVal)
  target : Option Element
deriving DecidableEq

/-- A GSAP timeline as the script observes it: its identity, `vars.id`
(absent = `undefined`), and the truthiness of `vars.onComplete`,
`vars.onStart` and `vars.onReverseComplete`. -/
structure Timeline where
  tlid : Nat
  varsId : Option String
  varsOnComplete : Bool
  varsOnStart : Bool
  varsOnReverseComplete : Bool
deriving DecidableEq

/-- A ScrollTrigger instance as the display loop reads it off the registry
key: its identity plus its `trigger` and `scroller` elements. -/
structure STObj where
  stid : Nat
  trigger : Option Element
  scroller : Option Element
deriving DecidableEq

/-- The mutable state of a ScrollTrigger at the moment a hook fires, as read
from the `self` argument and from `self.vars` by `updateSTProps`. -/
structure STSelf where
  trigger : Option Element
  scroller : Option Element
  startPos : JSVal
  endPos : JSVal
  progress : ℚ
  scrub : Option JSVal
  pin : Bool
  isActive : Bool
  toggleActions : Option String
deriving DecidableEq

/-- Registry value for a tracked tween (part_000 line 453): the merged
`{...staticProps, ...cssPropsToMonitor}` object plus the mutable `current`
object of live transform readings. -/
structure AnimEntry where
  props : List (String × JSVal)
  current : List (String × JSVal)
deriving DecidableEq

/-- Registry value computed by the timeline `onUpdate` handler (part_000
lines 492-503); the registry holds `none` between registration and the first
update (the initial `{}`). -/
structure TimelineSnap where
  status : String
  currentTime : String
  timeScale : String
  totalDuration : String
  positionParametersUsed : Bool
  cbOnComplete : Bool
  cbOnStart : Bool
  cbOnReverseComplete : Bool
deriving DecidableEq

/-- Playback values queried from a timeline inside its `onUpdate` handler:
`paused()`, `reversed()`, `time()`, `timeScale()`, `totalDuration()`, and the
`position` field of each child returned by `getChildren()`. -/
structure TLQuery where
  paused : Bool
  reversedFlag : Bool
  time : ℚ
  timeScale : ℚ
  totalDuration : ℚ
  childPositions : List JSVal
deriving DecidableEq

/-- Snapshot stored by `updateSTProps` (part_000 lines 538-549); all nine
fields are display strings derived from the trigger's current state. -/
structure STSnap where
  triggerElement : String
  scroller : String
  startDisplay : String
  endDisplay : String
  currentProgress : String
  scrubValue : String
  pinState : String
  isActive : String
  toggleActions : String
deriving DecidableEq

/-- The `eventData` record (part_000 lines 286, 560-568): one optional slot
per field the handlers ever write; `none` models an absent key. -/
structure EventData where
  eventType : Option String := none
  mouseX : Option String := none
  mouseY : Option String := none
  deltaY : Option String := none
  lastKey : Option String := none
  eventTarget : Option String := none
deriving DecidableEq

/-- Rendered `innerHTML` of the four overlay sections. -/
structure Sections where
  animationDiv : String
  timelineDiv : String
  scrollTriggerDiv : String
  eventsDiv : String
deriving DecidableEq

/-- The script's mutable state: the enabled flag, the persisted storage value
under `gsapDebuggerEnabled`, the three registries, the event record and the
rendered sections. -/
structure DebuggerState where
  enabled : Bool
  storage : Option String
  activeAnimations : List (Tween × AnimEntry)
  activeTimelines : List (Timeline × Option TimelineSnap)
  activeScrollTriggers : List (STObj × Option STSnap)
  eventData : EventData
  sections : Sections
deriving DecidableEq

/-- Result of the activation gate: the computed enabled flag and the
storage content after the gate ran. -/
structure GateResult where
  enabled : Bool
  storage : Option String
deriving DecidableEq

/-- Embedding of the activation gate (part_000 lines 36-42): the persisted
value enables only if it is the string `"true"`; a present query parameter
overrides and is persisted as the string form of the resulting boolean. -/
def activationGate (stored : Option String) (query : Option String) :
    GateResult :=
  match query with
  | some q =>
    { enabled := q = "true"
      storage := some (if q = "true" then "true" else "false") }
  | none => { enabled := stored = some "true", storage := stored }

/-- State of the script right after `initializeDebugger` built the UI:
empty registries, empty event record, empty section contents. -/
def mkInitialState (g : GateResult) : DebuggerState :=
  { enabled := g.enabled
    storage := g.storage
    activeAnimations := []
    activeTimelines := []
    activeScrollTriggers := []
    eventData := {}
    sections :=
      { animationDiv := "", timelineDiv := ""
        scrollTriggerDiv := "", eventsDiv := "" } }

/-- Top of the IIFE (part_000 lines 36-47): run the gate; if the flag is
false the script returns before installing anything, so no state exists. -/
def scriptRun (stored query : Option String) :
    GateResult × Option DebuggerState :=
  let g := activationGate stored query
  if g.enabled then (g, some (mkInitialState g)) else (g, none)

/-- A convenient concrete post-initialization state (gate passed with
`?gsapdbug=true`). -/
def initState : DebuggerState :=
  mkInitialState { enabled := true, storage := some "true" }

/-- The six statically captured declared parameters (part_000 line 439 and
again lines 328, 340 in the display loop). -/
def staticKeys : List String :=
  ["duration", "delay", "ease", "repeat", "yoyo", "stagger"]

/-- The exclusion list of part_000 line 447, duplicates included. -/
def excludedKeys : List String :=
  ["onUpdate", "onComplete", "onStart", "onReverseComplete", "onInterrupt",
   "onRepeat", "onEachComplete", "delay", "duration", "ease", "repeat",
   "yoyo", "stagger", "id", "overwrite", "callbackScope", "paused",
   "reversed", "data", "immediateRender", "lazy", "inherit", "runBackwards",
   "simple", "overwrite", "callbackScope", "defaults", "onToggle",
   "scrollTrigger"]

/-- The transform properties re-queried live on each tween update
(part_000 line 466). -/
def coreTransformProps : List String :=
  ["x", "y", "rotation", "scaleX", "scaleY", "opacity"]

/-- Registration half of `monitorTween` (part_000 lines 436-453): capture the
declared static parameters once, capture target values of the remaining
non-function, non-excluded `vars` keys, and start with an empty `current`
object. -/
def mkAnimEntry (t : Tween) : AnimEntry :=
  { props :=
      (staticKeys.filterMap fun p => (mapGet t.vars p).map fun v => (p, v))
        ++ t.vars.filter fun kv =>
            !(excludedKeys.contains kv.1) && !kv.2.isFunction
    current := [] }

/-- Registry component of `monitorTween` (part_000 line 453).  This is only
the `activeAnimations.set` effect; the complete embedding of `monitorTween`,
including the `eventCallback` reassignments it performs on the tween object
itself (lines 456, 478, 481), is `monitorTween` below. -/
def monitorTweenStep (st : DebuggerState) (t : Tween) : DebuggerState :=
  { st with activeAnimations := mapSet st.activeAnimations t (mkAnimEntry t) }

/-- Registry component of `monitorTimeline` (part_000 line 488): the initial
registry value is the empty object.  The complete embedding, including the
`eventCallback` reassignments on the timeline object itself (lines 490, 506,
509), is `monitorTimeline` below. -/
def monitorTimelineStep (st : DebuggerState) (tl : Timeline) : DebuggerState :=
  { st with activeTimelines := mapSet st.activeTimelines tl none }

/-- A value a GSAP callback slot can hold: an opaque caller-supplied
function (numbered), or one of the six closures the debugger installs. -/
inductive CallbackVal where
  | user (f : Nat)
  | debuggerTweenUpdate
  | debuggerTweenComplete
  | debuggerTweenReverseComplete
  | debuggerTimelineUpdate
  | debuggerTimelineComplete
  | debuggerTimelineReverseComplete
deriving DecidableEq

/-- The three callback types the script reassigns. -/
inductive CallbackType where
  | onUpdate
  | onComplete
  | onReverseComplete
deriving DecidableEq

/-- Modelled from the GSAP API the script consumes: a GSAP animation holds
a single callback per type; the slots start out holding whatever
`onUpdate` / `onComplete` / `onReverseComplete` functions the caller
supplied in `vars` (absent ones are unset). -/
structure CallbackSlots where
  onUpdate : Option CallbackVal := none
  onComplete : Option CallbackVal := none
  onReverseComplete : Option CallbackVal := none
deriving DecidableEq

/-- Modelled from the GSAP API the script consumes:
`animation.eventCallback(type, fn)` is a setter that stores `fn` as THE
callback of that type, replacing any previously stored callback — including
one the caller supplied in `vars` — and the library later invokes exactly
the stored callback on the corresponding occasion. -/
def CallbackSlots.assign (cb : CallbackSlots) (ty : CallbackType)
    (f : CallbackVal) : CallbackSlots :=
  match ty with
  | .onUpdate => { cb with onUpdate := some f }
  | .onComplete => { cb with onComplete := some f }
  | .onReverseComplete => { cb with onReverseComplete := some f }

/-- A full tween object as an unwrapped entry point returns it: the data
the script reads (`Tween`) together with its current callback slots. -/
structure TweenObj where
  tween : Tween
  callbacks : CallbackSlots
deriving DecidableEq

/-- A full timeline object: data plus callback slots. -/
structure TimelineObj where
  timeline : Timeline
  callbacks : CallbackSlots
deriving DecidableEq

/-- The three `eventCallback` calls of `monitorTween` (part_000 lines 456,
478, 481) as they act on the tween object: each slot is reassigned to the
debugger's handler, replacing any caller-supplied callback. -/
def attachTweenHandlers (o : TweenObj) : TweenObj :=
  let cb1 := CallbackSlots.assign o.callbacks CallbackType.onUpdate
    CallbackVal.debuggerTweenUpdate
  let cb2 := CallbackSlots.assign cb1 CallbackType.onComplete
    CallbackVal.debuggerTweenComplete
  let cb3 := CallbackSlots.assign cb2 CallbackType.onReverseComplete
    CallbackVal.debuggerTweenReverseComplete
  { o with callbacks := cb3 }

/-- The three `eventCallback` calls of `monitorTimeline` (part_000 lines
490, 506, 509) as they act on the timeline object. -/
def attachTimelineHandlers (o : TimelineObj) : TimelineObj :=
  let cb1 := CallbackSlots.assign o.callbacks CallbackType.onUpdate
    CallbackVal.debuggerTimelineUpdate
  let cb2 := CallbackSlots.assign cb1 CallbackType.onComplete
    CallbackVal.debuggerTimelineComplete
  let cb3 := CallbackSlots.assign cb2 CallbackType.onReverseComplete
    CallbackVal.debuggerTimelineReverseComplete
  { o with callbacks := cb3 }

/-- Full embedding of `monitorTween` (part_000 lines 436-484): capture the
entry from `vars` into the registry (line 453), then reassign the tween's
`onUpdate`, `onComplete` and `onReverseComplete` slots to the debugger's
handlers. -/
def monitorTween (st : DebuggerState) (o : TweenObj) :
    DebuggerState × TweenObj :=
  (monitorTweenStep st o.tween, attachTweenHandlers o)

/-- Full embedding of `monitorTimeline` (part_000 lines 487-512). -/
def monitorTimeline (st : DebuggerState) (o : TimelineObj) :
    DebuggerState × TimelineObj :=
  (monitorTimelineStep st o.timeline, attachTimelineHandlers o)

/-- The receiver a wrapped entry point passes to the original via
`originalX.apply(gsap, args)`. -/
inductive Receiver where
  | gsap
deriving DecidableEq

/-- Wrapped `gsap.to` (part_000 lines 410-414) restricted to the data the
registries read: forward the whole argument list to the original with the
`gsap` receiver, register the returned tween, and hand that very tween back
to the caller.  The callback-slot mutation `monitorTween` also performs on
the returned object is carried by `gsapToObj` below. -/
def gsapTo (orig : Receiver → List JSVal → Tween) (st : DebuggerState)
    (args : List JSVal) : DebuggerState × Tween :=
  let tween := orig .gsap args
  (monitorTweenStep st tween, tween)

/-- Wrapped `gsap.from` (part_000 lines 415-419), data level. -/
def gsapFrom (orig : Receiver → List JSVal → Tween) (st : DebuggerState)
    (args : List JSVal) : DebuggerState × Tween :=
  let tween := orig .gsap args
  (monitorTweenStep st tween, tween)

/-- Wrapped `gsap.fromTo` (part_000 lines 420-424), data level. -/
def gsapFromTo (orig : Receiver → List JSVal → Tween) (st : DebuggerState)
    (args : List JSVal) : DebuggerState × Tween :=
  let tween := orig .gsap args
  (monitorTweenStep st tween, tween)

/-- Wrapped `gsap.set` (part_000 lines 425-428): calls through and returns,
with no monitoring at all. -/
def gsapSet (orig : Receiver → List JSVal → Tween) (st : DebuggerState)
    (args : List JSVal) : DebuggerState × Tween :=
  let tween := orig .gsap args
  (st, tween)

/-- Wrapped `gsap.timeline` (part_000 lines 429-433), data level. -/
def gsapTimeline (orig : Receiver → List JSVal → Timeline)
    (st : DebuggerState) (args : List JSVal) : DebuggerState × Timeline :=
  let timeline := orig .gsap args
  (monitorTimelineStep st timeline, timeline)

/-- Wrapped `gsap.to` at full object fidelity (part_000 lines 410-414): the
original is applied to the `gsap` receiver and the untouched argument list,
the returned object is run through `monitorTween` — which registers it and
reassigns its three callback slots — and that mutated object is what the
caller receives. -/
def gsapToObj (orig : Receiver → List JSVal → TweenObj) (st : DebuggerState)
    (args : List JSVal) : DebuggerState × TweenObj :=
  monitorTween st (orig .gsap args)

/-- Wrapped `gsap.from` at full object fidelity (part_000 lines 415-419). -/
def gsapFromObj (orig : Receiver → List JSVal → TweenObj)
    (st : DebuggerState) (args : List JSVal) : DebuggerState × TweenObj :=
  monitorTween st (orig .gsap args)

/-- Wrapped `gsap.fromTo` at full object fidelity (part_000 lines
420-424). -/
def gsapFromToObj (orig : Receiver → List JSVal → TweenObj)
    (st : DebuggerState) (args : List JSVal) : DebuggerState × TweenObj :=
  monitorTween st (orig .gsap args)

/-- Wrapped `gsap.timeline` at full object fidelity (part_000 lines
429-433). -/
def gsapTimelineObj (orig : Receiver → List JSVal → TimelineObj)
    (st : DebuggerState) (args : List JSVal) : DebuggerState × TimelineObj :=
  monitorTimeline st (orig .gsap args)

/-- The tween `onUpdate` handler (part_000 lines 456-476).  `live` carries
the answers `gsap.getProperty(target, prop)` would give at this instant.
The handler bails out when the debugger is off, when the tween has no
target, or when the tween is no longer registered; otherwise it merges the
re-queried core transform values into the entry's `current` object. -/
def tweenUpdateStep (st : DebuggerState) (t : Tween)
    (live : List (String × JSVal)) : DebuggerState :=
  if !st.enabled then st
  else
    match t.target with
    | none => st
    | some _ =>
      match mapGet st.activeAnimations t with
      | none => st
      | some entry =>
        let liveUpdates := coreTransformProps.filterMap fun p =>
          if (mapGet t.vars p).isSome then
            some ("current_" ++ p, (mapGet live p).getD (JSVal.num 0))
          else none
        let entry' :=
          { entry with
            current := liveUpdates.foldl
              (fun acc kv => mapSet acc kv.1 kv.2) entry.current }
        { st with activeAnimations := mapSet st.activeAnimations t entry' }

/-- The tween `onComplete` / `onReverseComplete` handlers (part_000 lines
478-483): unconditionally delete the registry entry. -/
def tweenRemoveStep (st : DebuggerState) (t : Tween) : DebuggerState :=
  { st with activeAnimations := mapDelete st.activeAnimations t }

/-- Snapshot computed by the timeline `onUpdate` handler (part_000 lines
492-503) from the queried playback values and the timeline's `vars`. -/
def computeTLSnap (tl : Timeline) (q : TLQuery) : TimelineSnap :=
  { status :=
      if q.paused then "paused"
      else if q.reversedFlag then "reversed" else "playing"
    currentTime := toFixed 2 q.time ++ "s"
    timeScale := toFixed 2 q.timeScale
    totalDuration := toFixed 2 q.totalDuration ++ "s"
    positionParametersUsed := q.childPositions.any fun p =>
      match p with
      | .str s => strIncludes s "<" || strIncludes s ">" || strIncludes s "+="
      | _ => false
    cbOnComplete := tl.varsOnComplete
    cbOnStart := tl.varsOnStart
    cbOnReverseComplete := tl.varsOnReverseComplete }

/-- The timeline `onUpdate` handler (part_000 lines 490-505): when the
debugger is on it stores a freshly computed snapshot, with no check that the
timeline is still registered. -/
def timelineUpdateStep (st : DebuggerState) (tl : Timeline) (q : TLQuery) :
    DebuggerState :=
  if st.enabled then
    { st with activeTimelines :=
        mapSet st.activeTimelines tl (some (computeTLSnap tl q)) }
  else st

/-- The timeline `onComplete` / `onReverseComplete` handlers (part_000 lines
506-511). -/
def timelineRemoveStep (st : DebuggerState) (tl : Timeline) : DebuggerState :=
  { st with activeTimelines := mapDelete st.activeTimelines tl }

/-- Display form of a resolved start/end marker (part_000 lines 541-542):
numbers through `toFixed(0)`, anything else through template
stringification. -/
def stEdgeDisplay : JSVal → String
  | .num n => toFixed 0 n
  | .str s => s
  | .boolVal b => if b then "true" else "false"
  | .func => "[function]"

/-- Display form of `vars.scrub` (part_000 line 544): the literal `true`,
else numbers through `toFixed(1)`, else `none`. -/
def scrubDisplay : Option JSVal → String
  | some (.boolVal true) => "true"
  | some (.num n) => toFixed 1 n
  | _ => "none"

/-- Display form of `vars.toggleActions` (part_000 line 547): truthy strings
are re-joined with commas, otherwise the default action list. -/
def toggleActionsDisplay : Option String → String
  | some s =>
    if s = "" then "play, none, none, none"
    else String.intercalate ", " (s.splitOn " ")
  | none => "play, none, none, none"

/-- Embedding of `updateSTProps` (part_000 lines 536-550), the full
nine-field snapshot derived from the trigger's current state. -/
def updateSTProps (self : STSelf) : STSnap :=
  { triggerElement := getElementIdentifier self.trigger
    scroller := getElementIdentifier self.scroller
    startDisplay := stEdgeDisplay self.startPos
    endDisplay := stEdgeDisplay self.endPos
    currentProgress := toFixed 3 self.progress
    scrubValue := scrubDisplay self.scrub
    pinState := if self.pin then "true" else "false"
    isActive := if self.isActive then "true" else "false"
    toggleActions := toggleActionsDisplay self.toggleActions }

/-- Storing half of `updateSTProps`: guarded by the enabled flag, it always
overwrites the whole registry value with the fresh snapshot. -/
def stApplyUpdate (st : DebuggerState) (s : STObj) (self : STSelf) :
    DebuggerState :=
  if st.enabled then
    { st with activeScrollTriggers :=
        mapSet st.activeScrollTriggers s (some (updateSTProps self)) }
  else st

/-- Embedding of `monitorScrollTrigger` (part_000 lines 531-557): skip
already-tracked instances, otherwise register the empty snapshot, then run
`updateSTProps` once on the instance's current state. -/
def stDiscoverStep (st : DebuggerState) (s : STObj) (self : STSelf) :
    DebuggerState :=
  if (mapGet st.activeScrollTriggers s).isSome then st
  else
    stApplyUpdate
      { st with activeScrollTriggers := mapSet st.activeScrollTriggers s none }
      s self

/-- Fields a DOM event hands to `updateEventData`; `none` models an absent
(`undefined` or null) field. -/
structure DomEventData where
  clientX : Option ℚ := none
  clientY : Option ℚ := none
  deltaY : Option ℚ := none
  key : Option String := none
  target : Option Element := none
deriving DecidableEq

/-- Embedding of `updateEventData` (part_000 lines 560-568): always record
the event type, overwrite exactly the fields the event carries, keep every
other field as it was. -/
def updateEventData (enabled : Bool) (ty : String) (e : DomEventData)
    (ed : EventData) : EventData :=
  if !enabled then ed
  else
    { eventType := some ty
      mouseX := match e.clientX with
        | some x => some (toFixed 0 x)
        | none => ed.mouseX
      mouseY := match e.clientY with
        | some y => some (toFixed 0 y)
        | none => ed.mouseY
      deltaY := match e.deltaY with
        | some d => some (toFixed 0 d)
        | none => ed.deltaY
      lastKey := match e.key with
        | some k => some k
        | none => ed.lastKey
      eventTarget := match e.target with
        | some el => some (getElementIdentifier (some el))
        | none => ed.eventTarget }

/-- The toggle button click handler (part_000 lines 218-228): flip the flag,
persist its string form, and when the new state is disabled clear the three
registries and delete every `eventData` key. -/
def toggleClickStep (st : DebuggerState) : DebuggerState :=
  let enabled' := !st.enabled
  let st' := { st with
    enabled := enabled'
    storage := some (if enabled' then "true" else "false") }
  if !enabled' then
    { st' with
      activeAnimations := []
      activeTimelines := []
      activeScrollTriggers := []
      eventData := {} }
  else st'

/-- A `<p>` line with the 10px indent used throughout the display loop. -/
def pL10 (s : String) : String :=
  "<p style=\"margin-left: 10px;\">" ++ s ++ "</p>"

/-- A `<p>` line with the 20px indent used for callback sub-entries. -/
def pL20 (s : String) : String :=
  "<p style=\"margin-left: 20px;\">" ++ s ++ "</p>"

/-- The keys skipped by the third display pass over a tween entry
(part_000 line 340). -/
def displaySkippedKeys : List String :=
  ["duration", "delay", "ease", "repeat", "yoyo", "stagger", "current"]

/-- Serialization of one tween registry entry (part_000 lines 324-344):
static parameters in the fixed key order, then the live `current` values,
then remaining target values marked `(target)`. -/
def serializeAnimEntry (t : Tween) (e : AnimEntry) : String :=
  "<div><strong>Target: " ++ getElementIdentifier t.target ++ "</strong>"
    ++ String.join (staticKeys.filterMap fun p =>
        (mapGet e.props p).map fun v => pL10 (formatProperty p v))
    ++ String.join (e.current.map fun kv => pL10 (formatProperty kv.1 kv.2))
    ++ String.join ((e.props.filter fun kv =>
          !(displaySkippedKeys.contains kv.1)).map fun kv =>
        pL10 (formatProperty kv.1 kv.2 ++ " (target)"))
    ++ "</div>"

/-- The animations section fragment (part_000 lines 320-346). -/
def serializeAnimations (reg : List (Tween × AnimEntry)) : String :=
  "<h5>Animations:</h5>"
    ++ (if reg.length = 0 then "<p>No active animations.</p>"
        else String.join (reg.map fun p => serializeAnimEntry p.1 p.2))

/-- `timeline.vars.id || 'Unnamed'` (part_000 line 354). -/
def timelineName (tl : Timeline) : String :=
  match tl.varsId with
  | some s => if s = "" then "Unnamed" else s
  | none => "Unnamed"

/-- The property lines produced by the `for (const key in props)` loop over
one timeline entry (part_000 lines 355-364), in the literal's key order,
with the `callbacks` object expanded specially. -/
def tlPropsLines (snap : Option TimelineSnap) : String :=
  match snap with
  | none => ""
  | some s =>
    pL10 (formatProperty "status" (.str s.status))
      ++ pL10 (formatProperty "currentTime" (.str s.currentTime))
      ++ pL10 (formatProperty "timeScale" (.str s.timeScale))
      ++ pL10 (formatProperty "totalDuration" (.str s.totalDuration))
      ++ pL10 (formatProperty "positionParametersUsed"
          (.boolVal s.positionParametersUsed))
      ++ pL10 "Callbacks:"
      ++ pL20 ("- " ++ formatProperty "onComplete" (.boolVal s.cbOnComplete))
      ++ pL20 ("- " ++ formatProperty "onStart" (.boolVal s.cbOnStart))
      ++ pL20 ("- "
          ++ formatProperty "onReverseComplete" (.boolVal s.cbOnReverseComplete))

/-- One iteration of the timelines loop (part_000 lines 353-366), threading
the pair `(timelineHTML, animHTML)` exactly as the source does: the opening
`<div><strong>` goes to `timelineHTML`, while every property line and the
closing `</div>` are appended to `animHTML`. -/
def timelineLoopStep (acc : String × String)
    (entry : Timeline × Option TimelineSnap) : String × String :=
  (acc.1 ++ "<div><strong>Timeline: " ++ timelineName entry.1 ++ "</strong>",
   acc.2 ++ tlPropsLines entry.2 ++ "</div>")

/-- Serialization of one scroll-trigger registry entry (part_000 lines
374-386); `Trigger:`/`Scroller:` come from the key object, the rest from the
stored snapshot (`undefined` when the snapshot is still the initial `{}`).
Template-literal whitespace is not reproduced. -/
def serializeSTEntry (s : STObj) (snap : Option STSnap) : String :=
  let fld := fun (f : STSnap → String) =>
    match snap with
    | some sn => f sn
    | none => "undefined"
  "<div><strong>Trigger: " ++ getElementIdentifier s.trigger
    ++ "</strong><br>Scroller: " ++ getElementIdentifier s.scroller
    ++ pL10 ("Progress: " ++ fld (fun sn => sn.currentProgress))
    ++ pL10 ("Start: " ++ fld (fun sn => sn.startDisplay))
    ++ pL10 ("End: " ++ fld (fun sn => sn.endDisplay))
    ++ pL10 ("Scrub: " ++ fld (fun sn => sn.scrubValue))
    ++ pL10 ("Pin: " ++ fld (fun sn => sn.pinState))
    ++ pL10 ("Actions: " ++ fld (fun sn => sn.toggleActions))
    ++ pL10 ("Is Active: " ++ fld (fun sn => sn.isActive))
    ++ "</div>"

/-- The scroll-triggers section fragment (part_000 lines 370-387). -/
def serializeScrollTriggers (reg : List (STObj × Option STSnap)) : String :=
  "<h5>ScrollTriggers:</h5>"
    ++ (if reg.length = 0 then "<p>No active ScrollTriggers.</p>"
        else String.join (reg.map fun p => serializeSTEntry p.1 p.2))

/-- The populated keys of `eventData` in the record's field order. -/
def eventFields (ed : EventData) : List (String × String) :=
  ([("eventType", ed.eventType), ("mouseX", ed.mouseX),
    ("mouseY", ed.mouseY), ("deltaY", ed.deltaY),
    ("lastKey", ed.lastKey), ("eventTarget", ed.eventTarget)]).filterMap
    fun p => p.2.map fun v => (p.1, v)

/-- The events section fragment (part_000 lines 390-398). -/
def serializeEvents (ed : EventData) : String :=
  "<h5>Events:</h5>"
    ++ (if (eventFields ed).length = 0 then
          "<p>No active events to track.</p>"
        else String.join ((eventFields ed).map fun p =>
          "<p>" ++ formatProperty p.1 (.str p.2) ++ "</p>"))

/-- Embedding of `updateDisplay` (part_000 lines 317-399).  The animations
fragment is flushed to its section (line 347) before the timelines loop runs;
the timelines loop then keeps appending property lines to the local
`animHTML` variable, which is never written to the DOM again, so those lines
are dropped. -/
def updateDisplayStep (st : DebuggerState) : DebuggerState :=
  if !st.enabled then st
  else
    let animHTML := serializeAnimations st.activeAnimations
    let tlStart := "<h5>Timelines:</h5>"
      ++ (if st.activeTimelines.length = 0 then "<p>No active timelines.</p>"
          else "")
    let pair := st.activeTimelines.foldl timelineLoopStep (tlStart, animHTML)
    { st with sections :=
        { animationDiv := animHTML
          timelineDiv := pair.1
          scrollTriggerDiv := serializeScrollTriggers st.activeScrollTriggers
          eventsDiv := serializeEvents st.eventData } }

/-- External stimuli the installed script reacts to: wrapped construction
calls (carrying the object the original entry point returned), the
library-invoked per-object callbacks (carrying the values the handler would
query at that instant), scroll-trigger discovery, DOM events, the toggle
control, and the 100ms render tick. -/
inductive DEvent where
  | constructTween (t : Tween)
  | constructTimeline (tl : Timeline)
  | callSet (args : List JSVal)
  | tweenUpdate (t : Tween) (live : List (String × JSVal))
  | tweenComplete (t : Tween)
  | tweenReverseComplete (t : Tween)
  | timelineUpdate (tl : Timeline) (q : TLQuery)
  | timelineComplete (tl : Timeline)
  | timelineReverseComplete (tl : Timeline)
  | stDiscover (s : STObj) (self : STSelf)
  | stNotify (s : STObj) (self : STSelf)
  | domEvent (ty : String) (e : DomEventData)
  | toggleClick
  | renderTick

/-- One step of the installed system. -/
def step (st : DebuggerState) : DEvent → DebuggerState
  | .constructTween t => monitorTweenStep st t
  | .constructTimeline tl => monitorTimelineStep st tl
  | .callSet _ => st
  | .tweenUpdate t live => tweenUpdateStep st t live
  | .tweenComplete t => tweenRemoveStep st t
  | .tweenReverseComplete t => tweenRemoveStep st t
  | .timelineUpdate tl q => timelineUpdateStep st tl q
  | .timelineComplete tl => timelineRemoveStep st tl
  | .timelineReverseComplete tl => timelineRemoveStep st tl
  | .stDiscover s self => stDiscoverStep st s self
  | .stNotify s self => stApplyUpdate st s self
  | .domEvent ty e =>
    { st with eventData := updateEventData st.enabled ty e st.eventData }
  | .toggleClick => toggleClickStep st
  | .renderTick => updateDisplayStep st

/-- Run a sequence of stimuli. -/
def run (st : DebuggerState) (evs : List DEvent) : DebuggerState :=
  evs.foldl step st

/-- Does this event construct the given tween through the wrapper? -/
def constructsTween (t : Tween) : DEvent → Bool
  | .constructTween t' => t' = t
  | _ => false

/-- Does this event construct the given timeline, or deliver an update
notification to it (which writes its registry entry)? -/
def touchesTimeline (tl : Timeline) : DEvent → Bool
  | .constructTimeline tl' => tl' = tl
  | .timelineUpdate tl' _ => tl' = tl
  | _ => false

/-- A construction call through one of the four registering wrapped entry
points, with the raw argument list. -/
inductive CtorCall where
  | toCall (args : List JSVal)
  | fromCall (args : List JSVal)
  | fromToCall (args : List JSVal)
  | timelineCall (args : List JSVal)

/-- Is this a tween-producing call (as opposed to a timeline call)? -/
def CtorCall.isTweenCall : CtorCall → Bool
  | .timelineCall _ => false
  | _ => true

/-- The registry key (identity-carrying data) underlying a full object. -/
def objKey : TweenObj ⊕ TimelineObj → Tween ⊕ Timeline
  | .inl o => .inl o.tween
  | .inr o => .inr o.timeline

section Interception

variable (origTo origFrom origFromTo : Receiver → List JSVal → TweenObj)
variable (origTimeline : Receiver → List JSVal → TimelineObj)

/-- The object the unwrapped entry point returns for a call: what a caller
would get from the library with no debugger installed, callback slots still
holding whatever the caller supplied in `vars`. -/
def directResult : CtorCall → TweenObj ⊕ TimelineObj
  | .toCall a => .inl (origTo .gsap a)
  | .fromCall a => .inl (origFrom .gsap a)
  | .fromToCall a => .inl (origFromTo .gsap a)
  | .timelineCall a => .inr (origTimeline .gsap a)

/-- The registry key of the object a call constructs. -/
def callKey (c : CtorCall) : Tween ⊕ Timeline :=
  objKey (directResult origTo origFrom origFromTo origTimeline c)

/-- The unwrapped result after `monitorTween` / `monitorTimeline` has
reassigned its callback slots: the object a wrapped call actually hands
back. -/
def monitoredResult (c : CtorCall) : TweenObj ⊕ TimelineObj :=
  match directResult origTo origFrom origFromTo origTimeline c with
  | .inl o => .inl (attachTweenHandlers o)
  | .inr o => .inr (attachTimelineHandlers o)

/-- Dispatch one call through the wrapped entry points. -/
def wrappedCall (st : DebuggerState) : CtorCall →
    DebuggerState × (TweenObj ⊕ TimelineObj)
  | .toCall a =>
    let r := gsapToObj origTo st a
    (r.1, .inl r.2)
  | .fromCall a =>
    let r := gsapFromObj origFrom st a
    (r.1, .inl r.2)
  | .fromToCall a =>
    let r := gsapFromToObj origFromTo st a
    (r.1, .inl r.2)
  | .timelineCall a =>
    let r := gsapTimelineObj origTimeline st a
    (r.1, .inr r.2)

/-- Run a sequence of wrapped construction calls, collecting the returned
objects in order. -/
def runCalls (st : DebuggerState) :
    List CtorCall → DebuggerState × List (TweenObj ⊕ TimelineObj)
  | [] => (st, [])
  | c :: cs =>
    let r := wrappedCall origTo origFrom origFromTo origTimeline st c
    let rest := runCalls r.1 cs
    (rest.1, r.2 :: rest.2)

end Interception

/-- The constructed object is not yet registered in its registry. -/
def freshFor (st : DebuggerState) : Tween ⊕ Timeline → Prop
  | .inl t => mapGet st.activeAnimations t = none
  | .inr tl => mapGet st.activeTimelines tl = none

instance (st : DebuggerState) (r : Tween ⊕ Timeline) :
    Decidable (freshFor st r) := by
  cases r <;> simp only [freshFor] <;> infer_instance

theorem stApplyUpdate_anims (st : DebuggerState) (s : STObj) (self : STSelf) :
    (stApplyUpdate st s self).activeAnimations = st.activeAnimations := by
  by_cases h : st.enabled <;> simp [stApplyUpdate, h]

theorem stApplyUpdate_timelines (st : DebuggerState) (s : STObj)
    (self : STSelf) :
    (stApplyUpdate st s self).activeTimelines = st.activeTimelines := by
  by_cases h : st.enabled <;> simp [stApplyUpdate, h]

theorem stDiscoverStep_anims (st : DebuggerState) (s : STObj) (self : STSelf) :
    (stDiscoverStep st s self).activeAnimations = st.activeAnimations := by
  by_cases h : (mapGet st.activeScrollTriggers s).isSome <;>
    simp [stDiscoverStep, h, stApplyUpdate_anims]

theorem stDiscoverStep_timelines (st : DebuggerState) (s : STObj)
    (self : STSelf) :
    (stDiscoverStep st s self).activeTimelines = st.activeTimelines := by
  by_cases h : (mapGet st.activeScrollTriggers s).isSome <;>
    simp [stDiscoverStep, h, stApplyUpdate_timelines]

theorem updateDisplayStep_anims (st : DebuggerState) :
    (updateDisplayStep st).activeAnimations = st.activeAnimations := by
  by_cases h : st.enabled <;> simp [updateDisplayStep, h]

theorem updateDisplayStep_timelines (st : DebuggerState) :
    (updateDisplayStep st).activeTimelines = st.activeTimelines := by
  by_cases h : st.enabled <;> simp [updateDisplayStep, h]

theorem timelineUpdateStep_anims (st : DebuggerState) (tl : Timeline)
    (q : TLQuery) :
    (timelineUpdateStep st tl q).activeAnimations = st.activeAnimations := by
  by_cases h : st.enabled <;> simp [timelineUpdateStep, h]

theorem tweenUpdateStep_timelines (st : DebuggerState) (t : Tween)
    (live : List (String × JSVal)) :
    (tweenUpdateStep st t live).activeTimelines = st.activeTimelines := by
  by_cases h : st.enabled
  · cases htg : t.target with
    | none => simp [tweenUpdateStep, h, htg]
    | some tg =>
      cases hget : mapGet st.activeAnimations t <;>
        simp [tweenUpdateStep, h, htg, hget]
  · simp [tweenUpdateStep, h]

/-- C7: the wrapped `gsap.set` forwards the call (same receiver, same
argument list), returns exactly the original's result, and leaves the whole
debugger state — in particular each of the three registries and the event
record — untouched. -/
theorem C7_set_never_registers (orig : Receiver → List JSVal → Tween)
    (st : DebuggerState) (args : List JSVal) :
    (gsapSet orig st args).2 = orig .gsap args
    ∧ (gsapSet orig st args).1.activeAnimations = st.activeAnimations
    ∧ (gsapSet orig st args).1.activeTimelines = st.activeTimelines
    ∧ (gsapSet orig st args).1.activeScrollTriggers = st.activeScrollTriggers
    ∧ (gsapSet orig st args).1 = st := by
  refine ⟨rfl, rfl, rfl, rfl, rfl⟩

/-- C9: while the enabled flag is false a render tick is a complete no-op:
`updateDisplay` returns without touching any section content or any
registry, so the state is unchanged. -/
theorem C9_disabled_tick_noop (st : DebuggerState)
    (h : st.enabled = false) : updateDisplayStep st = st := by
  simp [updateDisplayStep, h]

theorem C9_disabled_tick_noop_witness :
    updateDisplayStep { initState with enabled := false }
      = { initState with enabled := false } :=
  C9_disabled_tick_noop { initState with enabled := false } rfl

/-- C8: the scroll-trigger snapshot recomputation shared by the update,
toggle and refresh hooks is idempotent (running it twice on the same trigger
state leaves exactly the state one run leaves) and total: whenever the
debugger is enabled it stores the complete nine-field snapshot derived from
the trigger's current state alone, regardless of what snapshot (if any) was
stored before. -/
theorem C8_st_snapshot_idempotent_total (st : DebuggerState) (s : STObj)
    (self : STSelf) :
    stApplyUpdate (stApplyUpdate st s self) s self = stApplyUpdate st s self
    ∧ (st.enabled = true →
        mapGet (stApplyUpdate st s self).activeScrollTriggers s
          = some (some (updateSTProps self))) := by
  constructor
  · by_cases h : st.enabled
    · simp [stApplyUpdate, h, mapSet_idem]
    · simp [stApplyUpdate, h]
  · intro h
    simp [stApplyUpdate, h, mapGet_mapSet_self]

def c8STObj : STObj := ⟨0, some (.el "hero" "" "div"), some .window⟩

def c8Self : STSelf :=
  { trigger := some (.el "hero" "" "div")
    scroller := some .window
    startPos := .num 120
    endPos := .str "bottom top"
    progress := 375 / 1000
    scrub := some (.boolVal true)
    pin := false
    isActive := true
    toggleActions := some "play pause resume reset" }

def c8Prev : DebuggerState :=
  { initState with activeScrollTriggers := [(c8STObj, none)] }

theorem C8_st_snapshot_idempotent_total_witness :
    mapGet (stApplyUpdate c8Prev c8STObj c8Self).activeScrollTriggers c8STObj
      = some (some (updateSTProps c8Self)) :=
  (C8_st_snapshot_idempotent_total c8Prev c8STObj c8Self).2 rfl

/-- C10: `updateEventData` merges rather than replaces: it always records
the new event type, overwrites exactly the fields the incoming event
carries, and leaves every absent field (for example `lastKey` during a
mouse move) holding its previous value. -/
theorem C10_event_snapshot_merge (ty : String) (e : DomEventData)
    (ed : EventData) :
    (updateEventData true ty e ed).eventType = some ty
    ∧ (e.clientX.isSome = true →
        (updateEventData true ty e ed).mouseX = e.clientX.map (toFixed 0))
    ∧ (e.clientX = none →
        (updateEventData true ty e ed).mouseX = ed.mouseX)
    ∧ (e.clientY.isSome = true →
        (updateEventData true ty e ed).mouseY = e.clientY.map (toFixed 0))
    ∧ (e.clientY = none →
        (updateEventData true ty e ed).mouseY = ed.mouseY)
    ∧ (e.deltaY.isSome = true →
        (updateEventData true ty e ed).deltaY = e.deltaY.map (toFixed 0))
    ∧ (e.deltaY = none →
        (updateEventData true ty e ed).deltaY = ed.deltaY)
    ∧ (e.key.isSome = true →
        (updateEventData true ty e ed).lastKey = e.key)
    ∧ (e.key = none →
        (updateEventData true ty e ed).lastKey = ed.lastKey)
    ∧ (e.target.isSome = true →
        (updateEventData true ty e ed).eventTarget
          = e.target.map fun el => getElementIdentifier (some el))
    ∧ (e.target = none →
        (updateEventData true ty e ed).eventTarget = ed.eventTarget) := by
  refine ⟨rfl, ?_, ?_, ?_, ?_, ?_, ?_, ?_, ?_, ?_, ?_⟩
  · intro h
    cases hx : e.clientX with
    | none => rw [hx] at h; cases h
    | some x => simp [updateEventData, hx]
  · intro h
    simp [updateEventData, h]
  · intro h
    cases hx : e.clientY with
    | none => rw [hx] at h; cases h
    | some y => simp [updateEventData, hx]
  · intro h
    simp [updateEventData, h]
  · intro h
    cases hx : e.deltaY with
    | none => rw [hx] at h; cases h
    | some d => simp [updateEventData, hx]
  · intro h
    simp [updateEventData, h]
  · intro h
    cases hx : e.key with
    | none => rw [hx] at h; cases h
    | some k => simp [updateEventData, hx]
  · intro h
    simp [updateEventData, h]
  · intro h
    cases hx : e.target with
    | none => rw [hx] at h; cases h
    | some el => simp [updateEventData, hx]
  · intro h
    simp [updateEventData, h]

def c10Keypress : DomEventData := { key := some "a", target := some .body }

def c10Move : DomEventData :=
  { clientX := some 10, clientY := some 20, target := some .body }

theorem C10_event_snapshot_merge_witness :
    (updateEventData true "mousemove" c10Move
        (updateEventData true "keypress" c10Keypress {})).lastKey
      = (updateEventData true "keypress" c10Keypress {}).lastKey :=
  (C10_event_snapshot_merge "mousemove" c10Move
    (updateEventData true "keypress" c10Keypress {})).2.2.2.2.2.2.2.2.1 rfl

/-- C5: the activation gate — a present query parameter decides the enabled
flag by strict comparison with the string `true` and persists that decision;
an absent parameter defers to the persisted value; a disabled outcome stops
initialization entirely; and a later load without a parameter reads the
persisted value back to the same flag. -/
theorem C5_activation_gate :
    (∀ stored q,
      ((activationGate stored (some q)).enabled = true ↔ q = "true")
      ∧ (activationGate stored (some q)).storage
          = some (if q = "true" then "true" else "false"))
    ∧ (∀ stored,
      ((activationGate stored none).enabled = true ↔ stored = some "true")
      ∧ (activationGate stored none).storage = stored)
    ∧ (∀ stored query, (activationGate stored query).enabled = false →
        (scriptRun stored query).2 = none)
    ∧ (∀ stored q,
        (activationGate (activationGate stored (some q)).storage none).enabled
          = (activationGate stored (some q)).enabled) := by
  refine ⟨fun stored q => ⟨?_, rfl⟩, fun stored => ⟨?_, rfl⟩, ?_, ?_⟩
  · simp [activationGate]
  · simp [activationGate]
  · intro stored query h
    simp [scriptRun, h]
  · intro stored q
    by_cases h : q = "true" <;> simp [activationGate, h]

theorem C5_activation_gate_witness :
    (scriptRun (some "true") (some "false")).2 = none :=
  C5_activation_gate.2.2.1 (some "true") (some "false") (by decide)

/-- C6: clicking the toggle while enabled flips the flag off, persists the
string `false`, and clears all three registries and the event record; a
second click re-enables with the registries still empty, so the next render
tick shows every section in its empty form. -/
theorem C6_toggle_off_clears (st : DebuggerState) (h : st.enabled = true) :
    toggleClickStep st
      = { enabled := false
          storage := some "false"
          activeAnimations := []
          activeTimelines := []
          activeScrollTriggers := []
          eventData := {}
          sections := st.sections }
    ∧ (updateDisplayStep (toggleClickStep (toggleClickStep st))).sections
      = { animationDiv := "<h5>Animations:</h5><p>No active animations.</p>"
          timelineDiv := "<h5>Timelines:</h5><p>No active timelines.</p>"
          scrollTriggerDiv :=
            "<h5>ScrollTriggers:</h5><p>No active ScrollTriggers.</p>"
          eventsDiv := "<h5>Events:</h5><p>No active events to track.</p>" } := by
  have h1 : toggleClickStep st
      = { enabled := false
          storage := some "false"
          activeAnimations := []
          activeTimelines := []
          activeScrollTriggers := []
          eventData := {}
          sections := st.sections } := by
    simp [toggleClickStep, h]
  refine ⟨h1, ?_⟩
  rw [h1]
  rfl

theorem C6_toggle_off_clears_witness :
    toggleClickStep initState
      = { enabled := false
          storage := some "false"
          activeAnimations := []
          activeTimelines := []
          activeScrollTriggers := []
          eventData := {}
          sections := initState.sections } :=
  (C6_toggle_off_clears initState rfl).1

theorem mapGet_mkAnimEntry_static (t : Tween) (k : String)
    (hk : k ∈ staticKeys) (v : JSVal) (hv : mapGet t.vars k = some v) :
    mapGet (mkAnimEntry t).props k = some v := by
  have hnd : staticKeys.Nodup := by decide
  refine mapGet_append_of_some _ _ _ _ ?_
  rw [mapGet_filterMap_keys staticKeys t.vars k hnd hk, hv]

theorem tweenUpdateStep_keeps_props (st : DebuggerState) (t : Tween)
    (live : List (String × JSVal)) (e : AnimEntry)
    (h : mapGet st.activeAnimations t = some e) :
    ∃ e', mapGet (tweenUpdateStep st t live).activeAnimations t = some e'
      ∧ e'.props = e.props := by
  by_cases hen : st.enabled
  · cases htg : t.target with
    | none => exact ⟨e, by simp [tweenUpdateStep, hen, htg, h], rfl⟩
    | some tg =>
      simp only [tweenUpdateStep, hen, htg, h, Bool.not_true,
        Bool.false_eq_true, if_false]
      exact ⟨_, mapGet_mapSet_self _ _ _, rfl⟩
  · exact ⟨e, by simp [tweenUpdateStep, hen, h], rfl⟩

/-- C2: constructing one tween through the wrapped `gsap.to` with declared
duration 2 and ease `power2` leaves, immediately on return, exactly one
registry entry for that tween; its statically captured `duration` and `ease`
fields hold the declared values; later update notifications never change the
captured static fields (only the `current` object); and a completion
notification leaves zero entries for that tween. -/
theorem C2_static_capture_lifecycle (orig : Receiver → List JSVal → Tween)
    (st : DebuggerState) (args : List JSVal) (t : Tween)
    (ht : t = orig .gsap args)
    (hfresh : mapGet st.activeAnimations t = none)
    (hdur : mapGet t.vars "duration" = some (.num 2))
    (hease : mapGet t.vars "ease" = some (.str "power2")) :
    countKey (gsapTo orig st args).1.activeAnimations t = 1
    ∧ mapGet (gsapTo orig st args).1.activeAnimations t
        = some (mkAnimEntry t)
    ∧ mapGet (mkAnimEntry t).props "duration" = some (.num 2)
    ∧ mapGet (mkAnimEntry t).props "ease" = some (.str "power2")
    ∧ (∀ live, ∃ e',
        mapGet (tweenUpdateStep (gsapTo orig st args).1 t
            live).activeAnimations t = some e'
        ∧ e'.props = (mkAnimEntry t).props)
    ∧ countKey (tweenRemoveStep (gsapTo orig st args).1 t).activeAnimations t
        = 0 := by
  subst ht
  set t := orig .gsap args with hT
  have hanims : (gsapTo orig st args).1.activeAnimations
      = mapSet st.activeAnimations t (mkAnimEntry t) := rfl
  have hget : mapGet (gsapTo orig st args).1.activeAnimations t
      = some (mkAnimEntry t) := by
    rw [hanims, mapGet_mapSet_self]
  refine ⟨?_, hget, ?_, ?_, ?_, ?_⟩
  · rw [hanims]
    exact countKey_mapSet_of_none _ _ _ hfresh
  · exact mapGet_mkAnimEntry_static t "duration" (by decide) _ hdur
  · exact mapGet_mkAnimEntry_static t "ease" (by decide) _ hease
  · intro live
    exact tweenUpdateStep_keeps_props _ t live (mkAnimEntry t) hget
  · exact countKey_mapDelete_self _ _

def c2Tween : Tween :=
  ⟨7, [("duration", .num 2), ("ease", .str "power2"), ("x", .num 100),
      ("onComplete", .func)], some .body⟩

theorem C2_static_capture_lifecycle_witness :
    countKey (gsapTo (fun _ _ => c2Tween) initState
        []).1.activeAnimations c2Tween = 1
    ∧ mapGet (mkAnimEntry c2Tween).props "duration" = some (.num 2)
    ∧ mapGet (mkAnimEntry c2Tween).props "ease" = some (.str "power2")
    ∧ countKey (tweenRemoveStep (gsapTo (fun _ _ => c2Tween) initState []).1
        c2Tween).activeAnimations c2Tween = 0 := by
  have h := C2_static_capture_lifecycle (fun _ _ => c2Tween) initState []
    c2Tween rfl (by decide) (by decide) (by decide)
  exact ⟨h.1, h.2.2.1, h.2.2.2.1, h.2.2.2.2.2⟩

def c4Timeline : Timeline := ⟨0, none, true, false, false⟩

def c4Snap : TimelineSnap :=
  ⟨"playing", "0.50s", "1.00", "2.00s", false, true, false, false⟩

def c4State : DebuggerState :=
  { initState with activeTimelines := [(c4Timeline, some c4Snap)] }

/-- C4 (code bug): with one tracked timeline whose snapshot is populated, a
render tick leaves the timeline section holding only the header and the
opening `<div><strong>` — none of the snapshot's property lines (which the
source appends to the already-flushed local `animHTML` variable) and not
even the closing `</div>` — even though the entry's serialized property
lines are non-empty and would, for instance, report `status: playing`. -/
theorem C4_timeline_section_drops_props :
    (updateDisplayStep c4State).sections.timelineDiv
      = "<h5>Timelines:</h5><div><strong>Timeline: Unnamed</strong>"
    ∧ strIncludes (updateDisplayStep c4State).sections.timelineDiv
        "status: playing" = false
    ∧ strIncludes (tlPropsLines (some c4Snap)) "status: playing" = true
    ∧ (updateDisplayStep c4State).sections.animationDiv
      = "<h5>Animations:</h5><p>No active animations.</p>" := by
  refine ⟨rfl, by decide, by decide, rfl⟩

theorem step_keeps_anims_none (st : DebuggerState) (t : Tween) (e : DEvent)
    (h : mapGet st.activeAnimations t = none)
    (he : constructsTween t e = false) :
    mapGet (step st e).activeAnimations t = none := by
  cases e with
  | constructTween t' =>
    have hne : t ≠ t' := by
      intro hEq
      simp [constructsTween, hEq] at he
    simp only [step, monitorTweenStep]
    rw [mapGet_mapSet_ne _ _ _ _ hne]
    exact h
  | constructTimeline tl => simpa [step, monitorTimelineStep] using h
  | callSet args => simpa [step] using h
  | tweenUpdate t' live =>
    by_cases hne : t' = t
    · subst hne
      by_cases hen : st.enabled
      · cases htg : t'.target <;> simp [step, tweenUpdateStep, hen, htg, h]
      · simp [step, tweenUpdateStep, hen, h]
    · have hne' : t ≠ t' := fun hh => hne hh.symm
      by_cases hen : st.enabled
      · cases htg : t'.target with
        | none => simpa [step, tweenUpdateStep, hen, htg] using h
        | some tg =>
          cases hget : mapGet st.activeAnimations t' with
          | none => simpa [step, tweenUpdateStep, hen, htg, hget] using h
          | some entry =>
            simp only [step, tweenUpdateStep, hen, htg, hget, Bool.not_true,
              Bool.false_eq_true, if_false]
            rw [mapGet_mapSet_ne _ _ _ _ hne']
            exact h
      · simpa [step, tweenUpdateStep, hen] using h
  | tweenComplete t' =>
    by_cases hne : t' = t
    · subst hne
      simp [step, tweenRemoveStep, mapGet_mapDelete_self]
    · have hne' : t ≠ t' := fun hh => hne hh.symm
      simp only [step, tweenRemoveStep]
      rw [mapGet_mapDelete_ne _ _ _ hne']
      exact h
  | tweenReverseComplete t' =>
    by_cases hne : t' = t
    · subst hne
      simp [step, tweenRemoveStep, mapGet_mapDelete_self]
    · have hne' : t ≠ t' := fun hh => hne hh.symm
      simp only [step, tweenRemoveStep]
      rw [mapGet_mapDelete_ne _ _ _ hne']
      exact h
  | timelineUpdate tl q => simpa [step, timelineUpdateStep_anims] using h
  | timelineComplete tl => simpa [step, timelineRemoveStep] using h
  | timelineReverseComplete tl => simpa [step, timelineRemoveStep] using h
  | stDiscover s self => simpa [step, stDiscoverStep_anims] using h
  | stNotify s self => simpa [step, stApplyUpdate_anims] using h
  | domEvent ty ev => simpa [step] using h
  | toggleClick =>
    by_cases hen : st.enabled <;> simp [step, toggleClickStep, hen, h, mapGet]
  | renderTick => simpa [step, updateDisplayStep_anims] using h

theorem step_keeps_timelines_none (st : DebuggerState) (tl : Timeline)
    (e : DEvent) (h : mapGet st.activeTimelines tl = none)
    (he : touchesTimeline tl e = false) :
    mapGet (step st e).activeTimelines tl = none := by
  cases e with
  | constructTween t' => simpa [step, monitorTweenStep] using h
  | constructTimeline tl' =>
    have hne : tl ≠ tl' := by
      intro hEq
      simp [touchesTimeline, hEq] at he
    simp only [step, monitorTimelineStep]
    rw [mapGet_mapSet_ne _ _ _ _ hne]
    exact h
  | callSet args => simpa [step] using h
  | tweenUpdate t' live => simpa [step, tweenUpdateStep_timelines] using h
  | tweenComplete t' => simpa [step, tweenRemoveStep] using h
  | tweenReverseComplete t' => simpa [step, tweenRemoveStep] using h
  | timelineUpdate tl' q =>
    have hne : tl ≠ tl' := by
      intro hEq
      simp [touchesTimeline, hEq] at he
    by_cases hen : st.enabled
    · simp only [step, timelineUpdateStep, hen, if_true]
      rw [mapGet_mapSet_ne _ _ _ _ hne]
      exact h
    · simpa [step, timelineUpdateStep, hen] using h
  | timelineComplete tl' =>
    by_cases hne : tl' = tl
    · subst hne
      simp [step, timelineRemoveStep, mapGet_mapDelete_self]
    · have hne' : tl ≠ tl' := fun hh => hne hh.symm
      simp only [step, timelineRemoveStep]
      rw [mapGet_mapDelete_ne _ _ _ hne']
      exact h
  | timelineReverseComplete tl' =>
    by_cases hne : tl' = tl
    · subst hne
      simp [step, timelineRemoveStep, mapGet_mapDelete_self]
    · have hne' : tl ≠ tl' := fun hh => hne hh.symm
      simp only [step, timelineRemoveStep]
      rw [mapGet_mapDelete_ne _ _ _ hne']
      exact h
  | stDiscover s self => simpa [step, stDiscoverStep_timelines] using h
  | stNotify s self => simpa [step, stApplyUpdate_timelines] using h
  | domEvent ty ev => simpa [step] using h
  | toggleClick =>
    by_cases hen : st.enabled <;> simp [step, toggleClickStep, hen, h, mapGet]
  | renderTick => simpa [step, updateDisplayStep_timelines] using h

theorem run_keeps_anims_none (t : Tween) : ∀ (evs : List DEvent)
    (st : DebuggerState), mapGet st.activeAnimations t = none →
    (evs.all fun e => !constructsTween t e) = true →
    mapGet (run st evs).activeAnimations t = none := by
  intro evs
  induction evs with
  | nil =>
    intro st h _
    simpa [run] using h
  | cons e evs ih =>
    intro st h hall
    simp only [List.all_cons, Bool.and_eq_true, Bool.not_eq_true'] at hall
    have h1 := step_keeps_anims_none st t e h hall.1
    simpa [run] using ih (step st e) h1 (by
      simpa [Bool.not_eq_true'] using hall.2)

theorem run_keeps_timelines_none (tl : Timeline) : ∀ (evs : List DEvent)
    (st : DebuggerState), mapGet st.activeTimelines tl = none →
    (evs.all fun e => !touchesTimeline tl e) = true →
    mapGet (run st evs).activeTimelines tl = none := by
  intro evs
  induction evs with
  | nil =>
    intro st h _
    simpa [run] using h
  | cons e evs ih =>
    intro st h hall
    simp only [List.all_cons, Bool.and_eq_true, Bool.not_eq_true'] at hall
    have h1 := step_keeps_timelines_none st tl e h hall.1
    simpa [run] using ih (step st e) h1 (by
      simpa [Bool.not_eq_true'] using hall.2)

def c3Timeline : Timeline := ⟨1, some "intro", false, false, false⟩

def c3Query : TLQuery := ⟨false, false, 1 / 2, 1, 2, []⟩

/-- C3 counterexample: after a timeline constructed through the wrapper
delivers its completion notification its entry is gone, but one later
update notification for the very same timeline — no new construction —
re-inserts an entry, because the timeline `onUpdate` handler stores its
snapshot without checking that the timeline is still registered. -/
theorem C3_counterexample_timeline_reappears :
    mapGet (run initState [.constructTimeline c3Timeline,
        .timelineComplete c3Timeline]).activeTimelines c3Timeline = none
    ∧ mapGet (run initState [.constructTimeline c3Timeline,
        .timelineComplete c3Timeline,
        .timelineUpdate c3Timeline c3Query]).activeTimelines c3Timeline
      = some (some (computeTLSnap c3Timeline c3Query)) :=
  ⟨rfl, rfl⟩

/-- C3 (amended): a completion or reverse-completion notification removes
the tracked object's registry entry for both tweens and timelines; for a
tween the entry then never reappears under any further events that do not
construct that tween again, because the tween `onUpdate` handler refuses to
write when the entry is absent; for a timeline the same holds only for
event sequences that also contain no update notification for that timeline,
since such a notification re-inserts the entry. -/
theorem C3_amended_completion_removal :
    (∀ (st : DebuggerState) (t : Tween),
      mapGet (tweenRemoveStep st t).activeAnimations t = none)
    ∧ (∀ (st : DebuggerState) (tl : Timeline),
      mapGet (timelineRemoveStep st tl).activeTimelines tl = none)
    ∧ (∀ (st : DebuggerState) (t : Tween) (evs : List DEvent),
      mapGet st.activeAnimations t = none →
      (evs.all fun e => !constructsTween t e) = true →
      mapGet (run st evs).activeAnimations t = none)
    ∧ (∀ (st : DebuggerState) (tl : Timeline) (evs : List DEvent),
      mapGet st.activeTimelines tl = none →
      (evs.all fun e => !touchesTimeline tl e) = true →
      mapGet (run st evs).activeTimelines tl = none) :=
  ⟨fun st t => mapGet_mapDelete_self st.activeAnimations t,
   fun st tl => mapGet_mapDelete_self st.activeTimelines tl,
   fun st t evs h hall => run_keeps_anims_none t evs st h hall,
   fun st tl evs h hall => run_keeps_timelines_none tl evs st h hall⟩

def c3Tween : Tween := ⟨2, [("duration", .num 1), ("x", .num 50)], some .body⟩

def c3Events : List DEvent :=
  [.renderTick, .domEvent "click" {}, .tweenUpdate c3Tween [("x", .num 5)],
   .tweenComplete c3Tween, .callSet [], .toggleClick]

theorem C3_amended_completion_removal_witness :
    mapGet (run initState c3Events).activeAnimations c3Tween = none :=
  C3_amended_completion_removal.2.2.1 initState c3Tween c3Events rfl
    (by decide)

theorem freshFor_monitorTweenStep (st : DebuggerState) (t : Tween)
    (r : Tween ⊕ Timeline) (hr : freshFor st r) (hne : r ≠ .inl t) :
    freshFor (monitorTweenStep st t) r := by
  cases r with
  | inl t' =>
    have h : t' ≠ t := fun hh => hne (by rw [hh])
    simp only [freshFor, monitorTweenStep] at hr ⊢
    rw [mapGet_mapSet_ne _ _ _ _ h]
    exact hr
  | inr tl => simpa [freshFor, monitorTweenStep] using hr

theorem freshFor_monitorTimelineStep (st : DebuggerState) (tl : Timeline)
    (r : Tween ⊕ Timeline) (hr : freshFor st r) (hne : r ≠ .inr tl) :
    freshFor (monitorTimelineStep st tl) r := by
  cases r with
  | inl t => simpa [freshFor, monitorTimelineStep] using hr
  | inr tl' =>
    have h : tl' ≠ tl := fun hh => hne (by rw [hh])
    simp only [freshFor, monitorTimelineStep] at hr ⊢
    rw [mapGet_mapSet_ne _ _ _ _ h]
    exact hr

def c1UserTween : TweenObj :=
  { tween := ⟨3, [("duration", .num 1), ("onComplete", .func)], some .body⟩
    callbacks := { onComplete := some (.user 5) } }

def c1UserOrig : Receiver → List JSVal → TweenObj := fun _ _ => c1UserTween

/-- C1 counterexample: a tween constructed through the wrapped `gsap.to`
with a caller-supplied `onComplete` callback is not behaviorally identical
to the unwrapped call's result.  `monitorTween` reassigns the tween's
`onComplete` slot to the debugger's deletion handler (part_000 line 478),
and `eventCallback` holds a single callback per type, so the caller's
callback is replaced and can never fire: the object the wrapped call
returns differs from the object the unwrapped entry point produces exactly
in its completion behavior. -/
theorem C1_counterexample_callback_replaced :
    (gsapToObj c1UserOrig initState []).2.callbacks.onComplete
      = some .debuggerTweenComplete
    ∧ (c1UserOrig .gsap []).callbacks.onComplete = some (.user 5)
    ∧ (gsapToObj c1UserOrig initState []).2 ≠ c1UserOrig .gsap [] :=
  ⟨rfl, rfl, by decide⟩

/-- C1 (amended): running any sequence of N construction calls through the
wrapped entry points (`to`, `from`, `fromTo`, `timeline`) — with the
library producing a distinct, not-yet-registered object per call —
registers exactly N entries, one in the registry corresponding to each
call, and each wrapped call returns the very object instance the original
unwrapped entry point produces for the `gsap` receiver and the untouched
argument list (same identity, `vars` and target), but with its `onUpdate`,
`onComplete` and `onReverseComplete` callback slots reassigned to the
debugger's handlers, replacing any caller-supplied callbacks — so the
return is the original's object, not a behaviorally identical one. -/
theorem C1_amended_interception
    (origTo origFrom origFromTo : Receiver → List JSVal → TweenObj)
    (origTimeline : Receiver → List JSVal → TimelineObj) :
    ∀ (cs : List CtorCall) (st : DebuggerState),
      (cs.map (callKey origTo origFrom origFromTo origTimeline)).Nodup →
      (∀ k ∈ cs.map (callKey origTo origFrom origFromTo origTimeline),
        freshFor st k) →
      (runCalls origTo origFrom origFromTo origTimeline st cs).2
          = cs.map (monitoredResult origTo origFrom origFromTo origTimeline)
      ∧ ((runCalls origTo origFrom origFromTo origTimeline st cs).2.map
            objKey
          = cs.map (callKey origTo origFrom origFromTo origTimeline))
      ∧ (runCalls origTo origFrom origFromTo origTimeline st
            cs).1.activeAnimations.length
          = st.activeAnimations.length
            + (cs.filter CtorCall.isTweenCall).length
      ∧ (runCalls origTo origFrom origFromTo origTimeline st
            cs).1.activeTimelines.length
          = st.activeTimelines.length
            + (cs.filter fun c => !c.isTweenCall).length := by
  intro cs
  induction cs with
  | nil =>
    intro st _ _
    refine ⟨rfl, rfl, by simp [runCalls], by simp [runCalls]⟩
  | cons c cs ih =>
    intro st hnd hfr
    rw [List.map_cons] at hnd
    obtain ⟨hni, hnd'⟩ := List.nodup_cons.mp hnd
    cases c with
    | toCall a =>
      have hfr0 : freshFor st (.inl (origTo .gsap a).tween) :=
        hfr _ (by simp [callKey, directResult, objKey])
      have hfr' : ∀ k ∈ cs.map
          (callKey origTo origFrom origFromTo origTimeline),
          freshFor (monitorTweenStep st (origTo .gsap a).tween) k := by
        intro k hk
        refine freshFor_monitorTweenStep _ _ _
          (hfr k (List.mem_cons_of_mem _ hk)) ?_
        intro hEq
        rw [hEq] at hk
        exact hni (by simpa [callKey, directResult, objKey] using hk)
      have hIH := ih (monitorTweenStep st (origTo .gsap a).tween) hnd' hfr'
      have hlen : (monitorTweenStep st
          (origTo .gsap a).tween).activeAnimations.length
          = st.activeAnimations.length + 1 :=
        length_mapSet_of_none _ _ _ hfr0
      refine ⟨?_, ?_, ?_, ?_⟩
      · simpa [runCalls, wrappedCall, gsapToObj, monitorTween,
          monitoredResult, directResult] using hIH.1
      · simpa [runCalls, wrappedCall, gsapToObj, monitorTween, callKey,
          directResult, objKey, attachTweenHandlers] using hIH.2.1
      · have h2 := hIH.2.2.1
        rw [hlen] at h2
        simpa [runCalls, wrappedCall, gsapToObj, monitorTween,
          CtorCall.isTweenCall, Nat.add_assoc, Nat.add_comm 1] using h2
      · have h3 := hIH.2.2.2
        simpa [runCalls, wrappedCall, gsapToObj, monitorTween,
          monitorTweenStep, CtorCall.isTweenCall] using h3
    | fromCall a =>
      have hfr0 : freshFor st (.inl (origFrom .gsap a).tween) :=
        hfr _ (by simp [callKey, directResult, objKey])
      have hfr' : ∀ k ∈ cs.map
          (callKey origTo origFrom origFromTo origTimeline),
          freshFor (monitorTweenStep st (origFrom .gsap a).tween) k := by
        intro k hk
        refine freshFor_monitorTweenStep _ _ _
          (hfr k (List.mem_cons_of_mem _ hk)) ?_
        intro hEq
        rw [hEq] at hk
        exact hni (by simpa [callKey, directResult, objKey] using hk)
      have hIH := ih (monitorTweenStep st (origFrom .gsap a).tween) hnd' hfr'
      have hlen : (monitorTweenStep st
          (origFrom .gsap a).tween).activeAnimations.length
          = st.activeAnimations.length + 1 :=
        length_mapSet_of_none _ _ _ hfr0
      refine ⟨?_, ?_, ?_, ?_⟩
      · simpa [runCalls, wrappedCall, gsapFromObj, monitorTween,
          monitoredResult, directResult] using hIH.1
      · simpa [runCalls, wrappedCall, gsapFromObj, monitorTween, callKey,
          directResult, objKey, attachTweenHandlers] using hIH.2.1
      · have h2 := hIH.2.2.1
        rw [hlen] at h2
        simpa [runCalls, wrappedCall, gsapFromObj, monitorTween,
          CtorCall.isTweenCall, Nat.add_assoc, Nat.add_comm 1] using h2
      · have h3 := hIH.2.2.2
        simpa [runCalls, wrappedCall, gsapFromObj, monitorTween,
          monitorTweenStep, CtorCall.isTweenCall] using h3
    | fromToCall a =>
      have hfr0 : freshFor st (.inl (origFromTo .gsap a).tween) :=
        hfr _ (by simp [callKey, directResult, objKey])
      have hfr' : ∀ k ∈ cs.map
          (callKey origTo origFrom origFromTo origTimeline),
          freshFor (monitorTweenStep st (origFromTo .gsap a).tween) k := by
        intro k hk
        refine freshFor_monitorTweenStep _ _ _
          (hfr k (List.mem_cons_of_mem _ hk)) ?_
        intro hEq
        rw [hEq] at hk
        exact hni (by simpa [callKey, directResult, objKey] using hk)
      have hIH := ih (monitorTweenStep st (origFromTo .gsap a).tween)
        hnd' hfr'
      have hlen : (monitorTweenStep st
          (origFromTo .gsap a).tween).activeAnimations.length
          = st.activeAnimations.length + 1 :=
        length_mapSet_of_none _ _ _ hfr0
      refine ⟨?_, ?_, ?_, ?_⟩
      · simpa [runCalls, wrappedCall, gsapFromToObj, monitorTween,
          monitoredResult, directResult] using hIH.1
      · simpa [runCalls, wrappedCall, gsapFromToObj, monitorTween, callKey,
          directResult, objKey, attachTweenHandlers] using hIH.2.1
      · have h2 := hIH.2.2.1
        rw [hlen] at h2
        simpa [runCalls, wrappedCall, gsapFromToObj, monitorTween,
          CtorCall.isTweenCall, Nat.add_assoc, Nat.add_comm 1] using h2
      · have h3 := hIH.2.2.2
        simpa [runCalls, wrappedCall, gsapFromToObj, monitorTween,
          monitorTweenStep, CtorCall.isTweenCall] using h3
    | timelineCall a =>
      have hfr0 : freshFor st (.inr (origTimeline .gsap a).timeline) :=
        hfr _ (by simp [callKey, directResult, objKey])
      have hfr' : ∀ k ∈ cs.map
          (callKey origTo origFrom origFromTo origTimeline),
          freshFor (monitorTimelineStep st (origTimeline .gsap a).timeline)
            k := by
        intro k hk
        refine freshFor_monitorTimelineStep _ _ _
          (hfr k (List.mem_cons_of_mem _ hk)) ?_
        intro hEq
        rw [hEq] at hk
        exact hni (by simpa [callKey, directResult, objKey] using hk)
      have hIH := ih (monitorTimelineStep st (origTimeline .gsap a).timeline)
        hnd' hfr'
      have hlen : (monitorTimelineStep st
          (origTimeline .gsap a).timeline).activeTimelines.length
          = st.activeTimelines.length + 1 :=
        length_mapSet_of_none _ _ _ hfr0
      refine ⟨?_, ?_, ?_, ?_⟩
      · simpa [runCalls, wrappedCall, gsapTimelineObj, monitorTimeline,
          monitoredResult, directResult] using hIH.1
      · simpa [runCalls, wrappedCall, gsapTimelineObj, monitorTimeline,
          callKey, directResult, objKey, attachTimelineHandlers]
          using hIH.2.1
      · have h2 := hIH.2.2.1
        simpa [runCalls, wrappedCall, gsapTimelineObj, monitorTimeline,
          monitorTimelineStep, CtorCall.isTweenCall] using h2
      · have h3 := hIH.2.2.2
        rw [hlen] at h3
        simpa [runCalls, wrappedCall, gsapTimelineObj, monitorTimeline,
          CtorCall.isTweenCall, Nat.add_assoc, Nat.add_comm 1] using h3

def c1To : Receiver → List JSVal → TweenObj :=
  fun _ a => ⟨⟨a.length, [("x", .num 10)], some .body⟩, {}⟩

def c1From : Receiver → List JSVal → TweenObj :=
  fun _ a => ⟨⟨100 + a.length, [("opacity", .num 0)], some .body⟩, {}⟩

def c1FromTo : Receiver → List JSVal → TweenObj :=
  fun _ a => ⟨⟨200 + a.length, [], none⟩, {}⟩

def c1TL : Receiver → List JSVal → TimelineObj :=
  fun _ a => ⟨⟨a.length, some "main", true, false, false⟩,
    { onComplete := some (.user 9) }⟩

def c1Calls : List CtorCall :=
  [.toCall [.num 1], .fromCall [], .fromToCall [.num 1, .num 2],
   .timelineCall [], .toCall []]

theorem C1_amended_interception_witness :
    (runCalls c1To c1From c1FromTo c1TL initState c1Calls).2
        = c1Calls.map (monitoredResult c1To c1From c1FromTo c1TL)
    ∧ ((runCalls c1To c1From c1FromTo c1TL initState c1Calls).2.map objKey
        = c1Calls.map (callKey c1To c1From c1FromTo c1TL))
    ∧ (runCalls c1To c1From c1FromTo c1TL initState
          c1Calls).1.activeAnimations.length
        = initState.activeAnimations.length
          + (c1Calls.filter CtorCall.isTweenCall).length
    ∧ (runCalls c1To c1From c1FromTo c1TL initState
          c1Calls).1.activeTimelines.length
        = initState.activeTimelines.length
          + (c1Calls.filter fun c => !c.isTweenCall).length :=
  C1_amended_interception c1To c1From c1FromTo c1TL c1Calls initState
    (by decide)
    (by
      intro k hk
      simp only [c1Calls, List.map_cons, List.map_nil, List.mem_cons,
        List.not_mem_nil, or_false] at hk
      rcases hk with h | h | h | h | h <;> (subst h; exact rfl))

end GsapDebugger
